import Mathlib

/-!
Verification of the server-status scoring library: a shallow embedding of
the binary status decoder, the score engine and the batch orchestrator,
with theorems settling the specification claims.

Byte buffers are lists of naturals (each element a byte value), machine
floats are modelled by exact rationals for the decoder (IEEE-754 binary32
decoding, with explicit NaN and infinity values) and by real numbers for
the score arithmetic.
-/

deriving instance DecidableEq for Except

/-! ## IEEE-754 binary32 values

The binary status format stores the partial score as a little-endian
32-bit float. `F32` is the decoded value: an exact rational for finite
floats, and explicit NaN and infinity values, so that the validation
comparisons keep their IEEE semantics (every comparison with NaN is
false). -/

inductive F32 where
  | finite (q : ℚ)
  | nan
  | inf
  | neginf
deriving DecidableEq, Repr

/-- Decoding of 4 little-endian bytes as an IEEE-754 binary32 value
(sign, 8 exponent bits, 23 mantissa bits), as f32 from_le_bytes does. -/
def f32_from_le_bytes (b0 b1 b2 b3 : Nat) : F32 :=
  let bits : Nat := b0 + 256 * b1 + 65536 * b2 + 16777216 * b3
  let sign : Nat := bits / 2 ^ 31
  let expo : Nat := bits / 2 ^ 23 % 2 ^ 8
  let mant : Nat := bits % 2 ^ 23
  if expo = 255 then
    if mant = 0 then (if sign = 1 then F32.neginf else F32.inf) else F32.nan
  else
    let mag : ℚ :=
      if expo = 0 then (mant : ℚ) * (2 : ℚ) ^ (-(149 : ℤ))
      else ((2 ^ 23 + mant : Nat) : ℚ) * (2 : ℚ) ^ ((expo : ℤ) - 150)
    F32.finite (if sign = 1 then -mag else mag)

/-- IEEE-754 ordering, strictly less than: false whenever either side is
NaN, infinities at the ends. -/
def f32_lt : F32 → F32 → Bool
  | F32.nan, _ => false
  | _, F32.nan => false
  | F32.neginf, F32.neginf => false
  | F32.neginf, _ => true
  | _, F32.neginf => false
  | F32.inf, _ => false
  | F32.finite _, F32.inf => true
  | F32.finite a, F32.finite b => decide (a < b)

/-- IEEE-754 ordering, strictly greater than. -/
def f32_gt (a b : F32) : Bool := f32_lt b a

/-- Mathematical membership of a float value in the closed interval
[0, 1]: a NaN or infinite value is not in the interval. -/
def f32_in_unit_interval : F32 → Bool
  | F32.finite q => decide (0 ≤ q) && decide (q ≤ 1)
  | _ => false

/-! ## Server status records (status/server_status.rs) -/

/-- One decoded 6-byte record: status bitmask byte, load byte, partial
score float. -/
structure ServerStatus where
  status : Nat
  load : Nat
  partial_score : F32
deriving DecidableEq, Repr

/-- The all-zero default record (the Default instance of the source). -/
def ServerStatus.default : ServerStatus :=
  { status := 0, load := 0, partial_score := F32.finite 0 }

/-- Decoding a 6-byte chunk: byte 0 status, byte 1 load, bytes 2..5 the
little-endian float (the From instance for 6-byte arrays). -/
def serverStatusFromBytes (src : List Nat) : ServerStatus :=
  { status := src.getD 0 0
    load := src.getD 1 0
    partial_score :=
      f32_from_le_bytes (src.getD 2 0) (src.getD 3 0) (src.getD 4 0) (src.getD 5 0) }

/-- validate_server: load must be at most 100 and the partial score must
not compare below 0.0 nor above 1.0 (IEEE comparisons). -/
def validate_server (server : ServerStatus) : Except String ServerStatus :=
  if server.load > 100 then
    Except.error "Server load must be between 0 and 100"
  else if f32_lt server.partial_score (F32.finite 0) ||
      f32_gt server.partial_score (F32.finite 1) then
    Except.error "Server partial score must be between 0.0 and 1.0"
  else
    Except.ok server

/-- The TryFrom instance for byte slices: exactly 6 bytes, then decode
and validate. -/
def serverStatusTryFrom (src : List Nat) : Except String ServerStatus :=
  if src.length = 6 then validate_server (serverStatusFromBytes src)
  else Except.error "Not enough bytes to parse ServerStatus"

/-! ## The status file parser (status/parser.rs) -/

/-- The 4-byte magic/version header. -/
def VERSION_HEADER : List Nat := [1, 0, 0, 0]

/-- Record size in bytes. -/
def SERVER_SIZE : Nat := 6

/-- The TryFrom instance of Parser: at least 4 bytes, the magic header,
and a record area whose length is a multiple of 6; on success the parser
wraps the bytes after the header. -/
def parserTryFrom (value : List Nat) : Except String (List Nat) :=
  if value.length < 4 then
    Except.error "Failed to read first 4 bytes in magic number"
  else if value.take 4 ≠ VERSION_HEADER then
    Except.error "Invalid magic number"
  else if (value.length - 4) % SERVER_SIZE ≠ 0 then
    Except.error "Status file is corrupt"
  else
    Except.ok (value.drop 4)

/-- Parser.len: the number of records in the wrapped record area. -/
def parserLen (records : List Nat) : Nat := records.length / SERVER_SIZE

/-- One invocation of the error callback: the arguments the parser passes
to log_errors. -/
structure SinkCall where
  index : Nat
  byte_offset : Nat
  message : String
deriving DecidableEq, Repr

/-- handle_errors: an Ok result passes through, an Err invokes the
callback with (index, index * SERVER_SIZE, message) and yields a clone of
the default. The calls made to the callback are returned as a list. -/
def handle_errors (index : Nat) (result : Except String ServerStatus)
    (default : ServerStatus) : ServerStatus × List SinkCall :=
  match result with
  | Except.ok server_status => (server_status, [])
  | Except.error e => (default, [{ index := index, byte_offset := index * SERVER_SIZE, message := e }])

/-- Parser.get: below the record count, decode and validate the 6 bytes
at the index; otherwise a clone of the default with no callback call. -/
def parserGet (records : List Nat) (i : Nat) (default : ServerStatus) :
    ServerStatus × List SinkCall :=
  if i ≥ parserLen records then (default, [])
  else
    handle_errors i
      (serverStatusTryFrom ((records.drop (i * SERVER_SIZE)).take SERVER_SIZE))
      default

/-- Parser.get with its implicit partiality made explicit: the source
slices records[6 i .. 6 i + 6], which panics when the upper bound passes
the end, and converts the slice to a 6-byte array, which fails when the
slice is not exactly 6 bytes long. `none` stands for that panic. -/
def parserGetChecked (records : List Nat) (i : Nat) (default : ServerStatus) :
    Option (ServerStatus × List SinkCall) :=
  if i ≥ parserLen records then some (default, [])
  else if i * SERVER_SIZE + SERVER_SIZE ≤ records.length then
    some (handle_errors i
      (serverStatusTryFrom ((records.drop (i * SERVER_SIZE)).take SERVER_SIZE))
      default)
  else none

/-! ## Country codes (country.rs and country_code.rs)

Two sibling validated two-byte types: Country accepts only uppercase
ASCII letters and keeps the bytes verbatim; CountryCode accepts any ASCII
bytes and uppercases them. -/

def is_ascii_uppercase (c : Nat) : Bool := 65 ≤ c && c ≤ 90

def is_ascii_lowercase (c : Nat) : Bool := 97 ≤ c && c ≤ 122

def is_ascii (c : Nat) : Bool := c ≤ 127

def to_ascii_uppercase (c : Nat) : Nat := if is_ascii_lowercase c then c - 32 else c

/-- The claim-side notion of an ASCII letter (uppercase or lowercase). -/
def is_ascii_letter (c : Nat) : Bool := is_ascii_uppercase c || is_ascii_lowercase c

/-- A validated two-byte country value (country.rs). -/
structure Country where
  b0 : Nat
  b1 : Nat
deriving DecidableEq, Repr

inductive CountryConversionError where
  | InvalidFormat
  | InvalidLength
deriving DecidableEq, Repr

inductive CountryCodeConversionError where
  | InvalidFormat
  | InvalidLength
deriving DecidableEq, Repr

/-- Country TryFrom over a 2-byte array: both bytes must already be
uppercase ASCII letters; the bytes are kept unchanged. -/
def countryTryFrom (b0 b1 : Nat) : Except CountryConversionError Country :=
  if !(is_ascii_uppercase b0 && is_ascii_uppercase b1) then
    Except.error CountryConversionError.InvalidFormat
  else
    Except.ok { b0 := b0, b1 := b1 }

/-- A validated two-byte country value, uppercased on construction
(country_code.rs). -/
structure CountryCode where
  b0 : Nat
  b1 : Nat
deriving DecidableEq, Repr

/-- CountryCode TryFrom over a 2-byte array: every byte must be ASCII
(at most 127); the bytes are uppercased. -/
def countryCodeTryFrom (b0 b1 : Nat) : Except CountryCodeConversionError CountryCode :=
  if [b0, b1].any (fun c => !(is_ascii c)) then
    Except.error CountryCodeConversionError.InvalidFormat
  else
    Except.ok { b0 := to_ascii_uppercase b0, b1 := to_ascii_uppercase b1 }

/-- Country TryFrom over a byte string of any length: exactly 2 bytes,
then the 2-byte conversion. -/
def countryTryFromList (l : List Nat) : Except CountryConversionError Country :=
  if l.length = 2 then countryTryFrom (l.getD 0 0) (l.getD 1 0)
  else Except.error CountryConversionError.InvalidLength

/-- CountryCode TryFrom over a byte string of any length: exactly 2
bytes, then the 2-byte conversion. -/
def countryCodeTryFromList (l : List Nat) : Except CountryCodeConversionError CountryCode :=
  if l.length = 2 then countryCodeTryFrom (l.getD 0 0) (l.getD 1 0)
  else Except.error CountryCodeConversionError.InvalidLength

/-! ## Geodesic distance (coord.rs)

The floating-point arithmetic of the score path is modelled over the real
numbers; the definitions below mirror the source formulas exactly. -/

noncomputable section

def RADIUS_OF_THE_EARTH : ℝ := 6371

/-- A geographical coordinate in radians. -/
structure Coord where
  lat : ℝ
  lon : ℝ

/-- Coord from_degrees: degrees times pi / 180. -/
def Coord.from_degrees (lat lon : ℝ) : Coord :=
  { lat := lat * (Real.pi / 180), lon := lon * (Real.pi / 180) }

/-- The squaring closure of distance_from (the name sq is taken by
Mathlib). -/
def sq_val (a : ℝ) : ℝ := a * a

/-- Coord.distance_from: the Haversine great-circle distance with Earth
radius 6371 km. -/
def Coord.distance_from (a b : Coord) : ℝ :=
  let lat_delta := b.lat - a.lat
  let lon_delta := b.lon - a.lon
  let angle := 2 *
    Real.arcsin (Real.sqrt (sq_val (Real.sin (lat_delta / 2)) +
      Real.cos a.lat * Real.cos b.lat * sq_val (Real.sin (lon_delta / 2))))
  RADIUS_OF_THE_EARTH * angle

/-- A latitude/longitude pair in degrees (location.rs; the f32 fields are
widened to f64 before any arithmetic, modelled as reals here). -/
structure Location where
  latitude : ℝ
  longitude : ℝ

/-! ## The score engine (compute_score.rs) -/

def SCORE_NORMALIZATION_FACTOR : ℝ := 10000

def BANDWITH_DISTANCE_FACTOR : ℝ := 738000

def PARTIAL_SCORE_CEILING : ℝ := 0.99

def STATUS_ENABLED : Nat := 1

def STATUS_VISIBLE : Nat := 2

def STATUS_AUTOCONNECTABLE : Nat := 4

/-- The normalize function of the score engine (the bare name normalize
is taken by Mathlib). -/
def normalize_score (score : ℝ) : ℝ :=
  (SCORE_NORMALIZATION_FACTOR - score) / SCORE_NORMALIZATION_FACTOR

def compute_distance_between (a b : Location) : ℝ :=
  Coord.distance_from (Coord.from_degrees a.latitude a.longitude)
    (Coord.from_degrees b.latitude b.longitude)

/-- The travel distance with the legacy feature enabled:
distance(client, exit) plus distance(entry, exit). -/
def compute_travel_distance_legacy
    (server_exit_location server_entry_location client_position : Location) : ℝ :=
  compute_distance_between client_position server_exit_location +
    compute_distance_between server_entry_location server_exit_location

/-- The travel distance with the legacy feature disabled:
distance(client, entry) plus distance(entry, exit). -/
def compute_travel_distance_default
    (server_exit_location server_entry_location client_position : Location) : ℝ :=
  compute_distance_between client_position server_entry_location +
    compute_distance_between server_entry_location server_exit_location

/-- The compile-time legacy feature of the source, as a boolean switch. -/
def compute_travel_distance (legacy : Bool)
    (server_exit_location server_entry_location client_position : Location) : ℝ :=
  if legacy then
    compute_travel_distance_legacy server_exit_location server_entry_location client_position
  else
    compute_travel_distance_default server_exit_location server_entry_location client_position

def compute_distance_score (legacy : Bool)
    (server_exit_location server_entry_location : Location)
    (client_position : Option Location) : ℝ :=
  let distance_in_km :=
    match client_position with
    | some client_position =>
        compute_travel_distance legacy server_exit_location server_entry_location
          client_position
    | none => 0
  let proximity_based_bandwidth_estimate :=
    BANDWITH_DISTANCE_FACTOR / max 1 distance_in_km
  normalize_score proximity_based_bandwidth_estimate

def compute_penalty (status_penalty : ℝ) (status_cost : Nat)
    (norm_server_available_bandwidth_for_session : ℝ)
    (client_country : Option Country) (server_country : Country)
    (server_status : Nat) : ℝ :=
  let is_in_same_country : Bool :=
    match client_country with
    | some country => country == server_country
    | none => true
  let penalty := status_penalty
  let server_disabled := server_status &&& STATUS_ENABLED = 0
  let server_hidden := server_status &&& STATUS_VISIBLE = 0
  let penalty := if server_disabled ∨ server_hidden then penalty + 1000 else penalty
  let penalty :=
    if is_in_same_country = false ∨
        PARTIAL_SCORE_CEILING ≤ norm_server_available_bandwidth_for_session then
      penalty + 1
    else penalty
  let penalty := if is_in_same_country = false ∧ status_cost = 1 then penalty + 3 else penalty
  penalty

/-- Rust f64 clamp on real numbers: below the floor gives the floor,
above the ceiling gives the ceiling. -/
def rust_clamp (x lo hi : ℝ) : ℝ :=
  if x < lo then lo else if x > hi then hi else x

structure ComputeScoreServerParams where
  status_penalty : ℝ
  status_cost : Nat
  country : Country
  partial_score : ℝ
  status : Nat
  exit_location : Location
  entry_location : Location
  normalized_jitter : ℝ

def compute_score (legacy : Bool) (server : ComputeScoreServerParams)
    (user_location : Option Location) (user_country : Option Country) : ℝ :=
  let distance_score :=
    compute_distance_score legacy server.exit_location server.entry_location user_location
  let capped_score := max distance_score server.partial_score
  let base_score := rust_clamp (capped_score + server.normalized_jitter) 0 1
  let penalty :=
    compute_penalty server.status_penalty server.status_cost server.partial_score
      user_country server.country server.status
  base_score + penalty

/-! ## The batch orchestrator (compute_loads.rs) -/

structure StatusReference where
  index : Nat
  penalty : ℝ
  cost : Nat

structure Logical where
  status_reference : StatusReference
  entry_location : Location
  exit_location : Location
  exit_country : Country

def Logical.default : Logical :=
  { status_reference := { index := 0, penalty := 0, cost := 0 }
    entry_location := { latitude := 0, longitude := 0 }
    exit_location := { latitude := 0, longitude := 0 }
    exit_country := { b0 := 0, b1 := 0 } }

structure Load where
  is_enabled : Bool
  is_visible : Bool
  is_autoconnectable : Bool
  load : Nat
  score : ℝ

def Load.default : Load :=
  { is_enabled := false, is_visible := false, is_autoconnectable := false
    load := 0, score := 0 }

inductive Error where
  | ParserError (msg : String)
  | LengthsNotConsistent (servers : Nat) (loads : Nat)
deriving DecidableEq

/-- The rate-limiting closure of compute_loads: the boolean is the
captured error_reported flag; a call is logged only while the flag is
still clear, and the first logged call sets it. -/
def rate_limit_logs : Bool → List SinkCall → List SinkCall
  | _, [] => []
  | true, _ :: rest => rate_limit_logs true rest
  | false, e :: rest => e :: rate_limit_logs true rest

/-- The real value a decoded partial score is widened to on the score
path (status.partial_score as f64). A non-finite value carries no real
counterpart; only a NaN can reach this point (infinities fail
validation), and no theorem depends on the value chosen for it. -/
def f32_to_real : F32 → ℝ
  | F32.finite q => (q : ℝ)
  | _ => 0

/-- The body of the per-server loop of compute_loads: look the record up
at the status reference index with the all-zero default, compute the
score with the i-th jitter sample, and fill every field of the output
record. The second component is the list of calls the lookup made to the
error callback. -/
def compute_loads_step (legacy : Bool) (jitter : Nat → ℝ) (records : List Nat)
    (user_location : Option Location) (user_country : Option Country)
    (i : Nat) (logical : Logical) : Load × List SinkCall :=
  let looked := parserGet records logical.status_reference.index ServerStatus.default
  let status := looked.1
  let score := compute_score legacy
    { status_penalty := logical.status_reference.penalty
      status_cost := logical.status_reference.cost
      country := logical.exit_country
      partial_score := f32_to_real status.partial_score
      status := status.status
      exit_location := logical.exit_location
      entry_location := logical.entry_location
      normalized_jitter := jitter i }
    user_location user_country
  ({ is_enabled := status.status &&& STATUS_ENABLED != 0
     is_visible := status.status &&& STATUS_VISIBLE != 0
     is_autoconnectable := status.status &&& STATUS_AUTOCONNECTABLE != 0
     load := status.load
     score := score }, looked.2)

/-- The zip loop of compute_loads, iterating in input order; the first
argument is the position of the head of the remaining list. -/
def compute_loads_go (legacy : Bool) (jitter : Nat → ℝ) (records : List Nat)
    (user_location : Option Location) (user_country : Option Country) :
    Nat → List Logical → List (Load × List SinkCall)
  | _, [] => []
  | i, logical :: rest =>
      compute_loads_step legacy jitter records user_location user_country i logical ::
        compute_loads_go legacy jitter records user_location user_country (i + 1) rest

/-- compute_loads. The source parses the status file, then compares the
lengths, then runs the loop; the fresh jitter samples are the values of
the `jitter` stream in order (the generator is the constant zero stream
when the jitter feature is off). On success the result carries the
output records in input order, every call made to the error callback in
order, and the rate-limited warnings actually logged. -/
def compute_loads (legacy : Bool) (jitter : Nat → ℝ) (loads : List Load)
    (logicals : List Logical) (status_file : List Nat)
    (user_location : Option Location) (user_country : Option Country) :
    Except Error (List Load × List SinkCall × List SinkCall) :=
  match parserTryFrom status_file with
  | Except.error e => Except.error (Error.ParserError e)
  | Except.ok records =>
    if loads.length ≠ logicals.length then
      Except.error (Error.LengthsNotConsistent logicals.length loads.length)
    else
      let pairs := compute_loads_go legacy jitter records user_location user_country 0 logicals
      let events := (pairs.map Prod.snd).flatten
      Except.ok (pairs.map Prod.fst, events, rate_limit_logs false events)

/-- The output records of a compute_loads result (empty on error). -/
def okLoads : Except Error (List Load × List SinkCall × List SinkCall) → List Load
  | Except.ok r => r.1
  | Except.error _ => []

/-- Every call a compute_loads run made to the error callback (empty on
error: the loop never ran). -/
def okEvents : Except Error (List Load × List SinkCall × List SinkCall) → List SinkCall
  | Except.ok r => r.2.1
  | Except.error _ => []

/-- The rate-limited warnings a compute_loads run logged (empty on
error). -/
def okLogs : Except Error (List Load × List SinkCall × List SinkCall) → List SinkCall
  | Except.ok r => r.2.2
  | Except.error _ => []

end

/-! ## Helper lemmas -/

theorem rate_limit_logs_true_eq_nil (es : List SinkCall) : rate_limit_logs true es = [] := by
  induction es with
  | nil => rfl
  | cons e rest ih => simpa [rate_limit_logs] using ih

theorem rate_limit_logs_false_eq_take_one (es : List SinkCall) :
    rate_limit_logs false es = es.take 1 := by
  cases es with
  | nil => rfl
  | cons e rest => simp [rate_limit_logs, rate_limit_logs_true_eq_nil]

/-- What a successful parse yields: the bytes after the header, whose
length is the buffer length minus 4 and a multiple of 6. -/
theorem parserTryFrom_ok (value records : List Nat)
    (hpar : parserTryFrom value = Except.ok records) :
    records = value.drop 4 ∧ 4 ≤ value.length ∧ (value.length - 4) % 6 = 0 := by
  unfold parserTryFrom at hpar
  split_ifs at hpar with h1 h2 h3 <;> cases hpar
  refine ⟨rfl, by omega, ?_⟩
  simpa [SERVER_SIZE] using h3

/-! ## Claim theorems -/

/-- Claim C3: constructing the status parser fails exactly when the
buffer is shorter than 4 bytes, or its first 4 bytes differ from the
magic 01 00 00 00, or the remaining byte count is not a multiple of 6;
on success the parser wraps the bytes after the header and its record
count is (buffer length - 4) / 6. -/
theorem c3_parser_construction (value : List Nat) :
    ((∃ e, parserTryFrom value = Except.error e) ↔
      (value.length < 4 ∨ value.take 4 ≠ [1, 0, 0, 0] ∨ (value.length - 4) % 6 ≠ 0)) ∧
    (∀ records, parserTryFrom value = Except.ok records →
      records = value.drop 4 ∧ parserLen records = (value.length - 4) / 6) := by
  constructor
  · unfold parserTryFrom VERSION_HEADER SERVER_SIZE
    split_ifs with h1 h2 h3 <;> simp_all
  · intro records hpar
    obtain ⟨hr, hge, hmod⟩ := parserTryFrom_ok value records hpar
    subst hr
    refine ⟨rfl, ?_⟩
    simp [parserLen, SERVER_SIZE]

/-- Claim C5: a lookup at an index at or past the record count returns a
clone of the default and makes no call to the error sink. -/
theorem c5_get_out_of_range (value records : List Nat) (i : Nat) (default : ServerStatus)
    (_hpar : parserTryFrom value = Except.ok records) (hi : parserLen records ≤ i) :
    parserGet records i default = (default, []) := by
  unfold parserGet
  rw [if_pos hi]

theorem c5_witness :
    parserTryFrom [1, 0, 0, 0] = Except.ok [] ∧ parserLen [] ≤ 3 ∧
      parserGet [] 3 ServerStatus.default = (ServerStatus.default, []) :=
  ⟨by rfl, by decide,
    c5_get_out_of_range [1, 0, 0, 0] [] 3 ServerStatus.default (by rfl) (by decide)⟩

/-- Claim C10: after a successful parse the record area length is a
multiple of 6, every in-range lookup slices exactly 6 bytes (so the
conversion to a 6-byte array succeeds), and the explicitly-checked get
never reaches the panic case at any index. -/
theorem c10_get_in_bounds (value records : List Nat) (default : ServerStatus)
    (hpar : parserTryFrom value = Except.ok records) :
    records.length % 6 = 0 ∧
    (∀ i, i < parserLen records →
      ((records.drop (i * SERVER_SIZE)).take SERVER_SIZE).length = 6) ∧
    (∀ i, parserGetChecked records i default = some (parserGet records i default)) := by
  obtain ⟨hr, hge, hmod⟩ := parserTryFrom_ok value records hpar
  have hlen : records.length % 6 = 0 := by
    subst hr
    simpa [List.length_drop] using hmod
  refine ⟨hlen, ?_, ?_⟩
  · intro i hi
    unfold parserLen SERVER_SIZE at hi
    have hbound : i * 6 + 6 ≤ records.length := by omega
    simp only [SERVER_SIZE, List.length_take, List.length_drop]
    omega
  · intro i
    unfold parserGetChecked parserGet
    by_cases hout : i ≥ parserLen records
    · rw [if_pos hout, if_pos hout]
    · have hi : i < parserLen records := lt_of_not_ge hout
      unfold parserLen SERVER_SIZE at hi
      have hbound : i * SERVER_SIZE + SERVER_SIZE ≤ records.length := by
        unfold SERVER_SIZE
        omega
      rw [if_neg hout, if_neg hout, if_pos hbound]

theorem c10_witness :
    parserTryFrom [1, 0, 0, 0, 2, 3, 0, 0, 0, 0] = Except.ok [2, 3, 0, 0, 0, 0] ∧
    ([2, 3, 0, 0, 0, 0] : List Nat).length % 6 = 0 ∧
    parserGetChecked [2, 3, 0, 0, 0, 0] 0 ServerStatus.default =
      some (parserGet [2, 3, 0, 0, 0, 0] 0 ServerStatus.default) :=
  ⟨by rfl,
    (c10_get_in_bounds [1, 0, 0, 0, 2, 3, 0, 0, 0, 0] [2, 3, 0, 0, 0, 0]
      ServerStatus.default (by rfl)).1,
    (c10_get_in_bounds [1, 0, 0, 0, 2, 3, 0, 0, 0, 0] [2, 3, 0, 0, 0, 0]
      ServerStatus.default (by rfl)).2.2 0⟩

/-- Claim C8: across one whole compute_loads call the warning log gets
exactly the first error-callback invocation and nothing more, however
many records fail: the logged warnings are the first element (if any) of
the full invocation sequence, so at most one warning is ever logged. -/
theorem c8_error_log_rate_limited (legacy : Bool) (jitter : Nat → ℝ) (loads : List Load)
    (logicals : List Logical) (status_file : List Nat) (user_location : Option Location)
    (user_country : Option Country) :
    okLogs (compute_loads legacy jitter loads logicals status_file user_location user_country) =
      (okEvents (compute_loads legacy jitter loads logicals status_file user_location
        user_country)).take 1 ∧
    (okLogs (compute_loads legacy jitter loads logicals status_file user_location
      user_country)).length ≤ 1 := by
  have hmain : okLogs (compute_loads legacy jitter loads logicals status_file user_location
      user_country) =
      (okEvents (compute_loads legacy jitter loads logicals status_file user_location
        user_country)).take 1 := by
    unfold compute_loads
    cases hp : parserTryFrom status_file with
    | error e => simp [okLogs, okEvents]
    | ok records =>
      by_cases hlen : loads.length ≠ logicals.length
      · simp [hlen, okLogs, okEvents]
      · simp [hlen, okLogs, okEvents, rate_limit_logs_false_eq_take_one]
  refine ⟨hmain, ?_⟩
  rw [hmain]
  simp [List.length_take]

/-- Claim C9 counterexample: the byte pair (49, 50), the characters "12",
holds no ASCII letter yet CountryCode construction succeeds; the byte
pair (97, 98), the lowercase characters "ab", holds only ASCII letters
yet Country construction fails, and nothing is uppercased. -/
theorem c9_counterexample :
    is_ascii_letter 49 = false ∧ is_ascii_letter 50 = false ∧
    countryCodeTryFrom 49 50 = Except.ok { b0 := 49, b1 := 50 } ∧
    is_ascii_letter 97 = true ∧ is_ascii_letter 98 = true ∧
    countryTryFrom 97 98 = Except.error CountryConversionError.InvalidFormat := by
  decide

/-- Claim C9 as amended: CountryCode construction from two bytes succeeds
exactly when both bytes are ASCII (at most 127), whatever characters
they are, and the value is the uppercased input; Country construction
succeeds exactly when both bytes are already uppercase ASCII letters,
and the value keeps the bytes verbatim; an input of any other length is
a hard InvalidLength error for both. -/
theorem c9_country_construction (b0 b1 : Nat) (l : List Nat) :
    (countryCodeTryFrom b0 b1 =
      if is_ascii b0 && is_ascii b1 then
        Except.ok { b0 := to_ascii_uppercase b0, b1 := to_ascii_uppercase b1 }
      else Except.error CountryCodeConversionError.InvalidFormat) ∧
    (countryTryFrom b0 b1 =
      if is_ascii_uppercase b0 && is_ascii_uppercase b1 then
        Except.ok { b0 := b0, b1 := b1 }
      else Except.error CountryConversionError.InvalidFormat) ∧
    (l.length ≠ 2 →
      countryCodeTryFromList l = Except.error CountryCodeConversionError.InvalidLength ∧
      countryTryFromList l = Except.error CountryConversionError.InvalidLength) := by
  refine ⟨?_, ?_, ?_⟩
  · unfold countryCodeTryFrom
    cases hb0 : is_ascii b0 <;> cases hb1 : is_ascii b1 <;> simp [hb0, hb1]
  · unfold countryTryFrom
    cases h : (is_ascii_uppercase b0 && is_ascii_uppercase b1) <;> simp [h]
  · intro hl
    unfold countryCodeTryFromList countryTryFromList
    rw [if_neg hl, if_neg hl]
    exact ⟨rfl, rfl⟩

/-- The record decoded, without validation, from the 6 bytes at a given
index of the record area. -/
def decoded_record_at (records : List Nat) (i : Nat) : ServerStatus :=
  serverStatusFromBytes ((records.drop (i * SERVER_SIZE)).take SERVER_SIZE)

/-- The validation predicate of validate_server as one boolean: load
over 100, or a partial score comparing below 0.0 or above 1.0. -/
def record_invalid (r : ServerStatus) : Bool :=
  (100 < r.load : Bool) || f32_lt r.partial_score (F32.finite 0) ||
    f32_gt r.partial_score (F32.finite 1)

/-- Claim C4 as amended: for an in-range index of a successfully parsed
buffer, when the decoded record fails validation — load over 100, or a
partial score comparing below 0.0 or above 1.0 under IEEE-754 ordering
(a NaN partial score compares false to both bounds and so passes) — get
calls the error sink once with the record index and byte offset and
returns a value equal to the default; otherwise it returns the decoded
triple and never calls the sink. -/
theorem c4_get_validation (value records : List Nat) (i : Nat) (default : ServerStatus)
    (_hpar : parserTryFrom value = Except.ok records) (hi : i < parserLen records) :
    (record_invalid (decoded_record_at records i) = true →
      (parserGet records i default).1 = default ∧
      (parserGet records i default).2.length = 1 ∧
      ∀ call ∈ (parserGet records i default).2,
        call.index = i ∧ call.byte_offset = i * SERVER_SIZE) ∧
    (record_invalid (decoded_record_at records i) = false →
      parserGet records i default = (decoded_record_at records i, [])) := by
  have hbound : i * 6 + 6 ≤ records.length := by
    unfold parserLen SERVER_SIZE at hi
    omega
  have hlen6 : ((records.drop (i * SERVER_SIZE)).take SERVER_SIZE).length = 6 := by
    simp only [SERVER_SIZE, List.length_take, List.length_drop]
    omega
  unfold parserGet
  rw [if_neg (not_le.mpr hi)]
  unfold serverStatusTryFrom
  rw [if_pos hlen6]
  unfold validate_server handle_errors decoded_record_at record_invalid
  constructor
  · intro hinv
    by_cases hload :
        100 < (serverStatusFromBytes ((records.drop (i * SERVER_SIZE)).take SERVER_SIZE)).load
    · rw [if_pos hload]
      refine ⟨rfl, rfl, ?_⟩
      intro call hc
      simp only [List.mem_singleton] at hc
      subst hc
      exact ⟨rfl, rfl⟩
    · rw [if_neg hload]
      have hfl : (f32_lt (serverStatusFromBytes
            ((records.drop (i * SERVER_SIZE)).take SERVER_SIZE)).partial_score (F32.finite 0) ||
          f32_gt (serverStatusFromBytes
            ((records.drop (i * SERVER_SIZE)).take SERVER_SIZE)).partial_score
              (F32.finite 1)) = true := by
        rcases Bool.or_eq_true_iff.mp (by
            simpa [Bool.or_assoc, decide_eq_true_iff, hload] using hinv) with h | h
        · simp [h]
        · simp [h]
      rw [if_pos hfl]
      refine ⟨rfl, rfl, ?_⟩
      intro call hc
      simp only [List.mem_singleton] at hc
      subst hc
      exact ⟨rfl, rfl⟩
  · intro hval
    have hload :
        ¬ 100 < (serverStatusFromBytes ((records.drop (i * SERVER_SIZE)).take SERVER_SIZE)).load := by
      intro h
      simp [h] at hval
    have hfl : ¬ (f32_lt (serverStatusFromBytes
          ((records.drop (i * SERVER_SIZE)).take SERVER_SIZE)).partial_score (F32.finite 0) ||
        f32_gt (serverStatusFromBytes
          ((records.drop (i * SERVER_SIZE)).take SERVER_SIZE)).partial_score
            (F32.finite 1)) = true := by
      intro h
      rcases Bool.or_eq_true_iff.mp h with h2 | h2 <;> simp [h2] at hval
    rw [if_neg hload, if_neg hfl]

theorem c4_witness :
    parserTryFrom [1, 0, 0, 0, 1, 150, 0, 0, 0, 0] = Except.ok [1, 150, 0, 0, 0, 0] ∧
    0 < parserLen [1, 150, 0, 0, 0, 0] ∧
    record_invalid (decoded_record_at [1, 150, 0, 0, 0, 0] 0) = true ∧
    (parserGet [1, 150, 0, 0, 0, 0] 0 ServerStatus.default).1 = ServerStatus.default :=
  ⟨by decide, by decide, by decide,
    ((c4_get_validation [1, 0, 0, 0, 1, 150, 0, 0, 0, 0] [1, 150, 0, 0, 0, 0] 0
      ServerStatus.default (by decide) (by decide)).1 (by decide)).1⟩

/-- Claim C4 counterexample: the record bytes 01 32 00 00 C0 7F decode to
load 50 and a NaN partial score. NaN lies outside the interval
[0.0, 1.0], so the claim would have get call the error sink and return
the default; the code accepts the record (NaN compares false to both
bounds) and returns the decoded triple with no sink call. -/
theorem c4_counterexample :
    parserTryFrom [1, 0, 0, 0, 1, 50, 0, 0, 192, 127] = Except.ok [1, 50, 0, 0, 192, 127] ∧
    0 < parserLen [1, 50, 0, 0, 192, 127] ∧
    f32_in_unit_interval (decoded_record_at [1, 50, 0, 0, 192, 127] 0).partial_score = false ∧
    (decoded_record_at [1, 50, 0, 0, 192, 127] 0).load ≤ 100 ∧
    parserGet [1, 50, 0, 0, 192, 127] 0 ServerStatus.default =
      (decoded_record_at [1, 50, 0, 0, 192, 127] 0, []) ∧
    decoded_record_at [1, 50, 0, 0, 192, 127] 0 ≠ ServerStatus.default := by
  decide

/-- Claim C2: the penalty is the status penalty, plus 1000 when the
enabled bit or the visible bit is clear, plus 1 when the user country is
known and differs from the server country or the partial score is at
least 0.99, plus 3 when the user country is known and differs and the
cost flag is 1; an unknown user country counts as the same country. -/
theorem c2_compute_penalty_formula (status_penalty : ℝ) (status_cost : Nat)
    (partial_score : ℝ) (client_country : Option Country) (server_country : Country)
    (server_status : Nat) :
    compute_penalty status_penalty status_cost partial_score client_country server_country
        server_status =
      status_penalty +
        (if server_status &&& STATUS_ENABLED = 0 ∨ server_status &&& STATUS_VISIBLE = 0 then
          (1000 : ℝ) else 0) +
        (if (client_country ≠ none ∧ client_country ≠ some server_country) ∨
            (0.99 : ℝ) ≤ partial_score then (1 : ℝ) else 0) +
        (if (client_country ≠ none ∧ client_country ≠ some server_country) ∧
            status_cost = 1 then (3 : ℝ) else 0) := by
  unfold compute_penalty PARTIAL_SCORE_CEILING
  cases client_country with
  | none =>
      simp only [Option.some.injEq, ne_eq, not_true_eq_false, false_and, false_or]
      split_ifs <;> simp_all
  | some c =>
      by_cases hc : c = server_country
      · subst hc
        simp only [beq_self_eq_true, Option.some.injEq, ne_eq, not_true_eq_false,
          and_false, false_and, false_or]
        split_ifs <;> simp_all
      · have hbeq : (c == server_country) = false := by
          simpa using hc
        simp only [hbeq, Option.some.injEq, ne_eq]
        have hne2 : ¬ some c = some server_country := by
          simpa using hc
        split_ifs <;> simp_all

/-- The Haversine distance is symmetric in its two endpoints. -/
theorem compute_distance_between_comm (a b : Location) :
    compute_distance_between a b = compute_distance_between b a := by
  unfold compute_distance_between Coord.distance_from Coord.from_degrees sq_val
  have hsin : ∀ x y : ℝ,
      Real.sin ((x - y) / 2) * Real.sin ((x - y) / 2) =
        Real.sin ((y - x) / 2) * Real.sin ((y - x) / 2) := by
    intro x y
    have hxy : (x - y) / 2 = -((y - x) / 2) := by ring
    rw [hxy, Real.sin_neg, neg_mul_neg]
  simp only
  rw [hsin, hsin, mul_comm (Real.cos (a.latitude * (Real.pi / 180)))
    (Real.cos (b.latitude * (Real.pi / 180))),
    hsin (b.longitude * (Real.pi / 180)) (a.longitude * (Real.pi / 180))]

/-- Claim C1: the score is the clamp to [0, 1] of the jittered maximum of
the distance score and the partial score, plus the penalty; the distance
score is normalize (738000 / max 1 t) with t = 0 without a user
location, t = distance(user, entry) + distance(entry, exit) in the
default mode, and t = distance(user, exit) + distance(exit, entry) in
the legacy mode. -/
theorem c1_compute_score_formula (legacy : Bool) (server : ComputeScoreServerParams)
    (user_location : Option Location) (user_country : Option Country) :
    compute_score legacy server user_location user_country =
      rust_clamp
        (max
          (normalize_score ((738000 : ℝ) /
            max 1
              (match user_location with
               | none => (0 : ℝ)
               | some u =>
                   if legacy then
                     compute_distance_between u server.exit_location +
                       compute_distance_between server.exit_location server.entry_location
                   else
                     compute_distance_between u server.entry_location +
                       compute_distance_between server.entry_location server.exit_location)))
          server.partial_score + server.normalized_jitter) 0 1 +
      compute_penalty server.status_penalty server.status_cost server.partial_score
        user_country server.country server.status := by
  cases user_location with
  | none =>
      cases legacy <;>
        simp [compute_score, compute_distance_score, compute_travel_distance,
          BANDWITH_DISTANCE_FACTOR]
  | some u =>
      cases legacy with
      | false =>
          simp [compute_score, compute_distance_score, compute_travel_distance,
            compute_travel_distance_default, BANDWITH_DISTANCE_FACTOR]
      | true =>
          rw [compute_distance_between_comm server.exit_location server.entry_location]
          simp [compute_score, compute_distance_score, compute_travel_distance,
            compute_travel_distance_legacy, BANDWITH_DISTANCE_FACTOR]

theorem compute_loads_go_length (legacy : Bool) (jitter : Nat → ℝ) (records : List Nat)
    (user_location : Option Location) (user_country : Option Country) :
    ∀ (l : List Logical) (n : Nat),
      (compute_loads_go legacy jitter records user_location user_country n l).length =
        l.length := by
  intro l
  induction l with
  | nil => intro n; rfl
  | cons a rest ih =>
      intro n
      simp [compute_loads_go, ih]

theorem compute_loads_go_getElem (legacy : Bool) (jitter : Nat → ℝ) (records : List Nat)
    (user_location : Option Location) (user_country : Option Country) :
    ∀ (l : List Logical) (n i : Nat) (hi : i < l.length),
      (compute_loads_go legacy jitter records user_location user_country n l)[i]? =
        some (compute_loads_step legacy jitter records user_location user_country (n + i)
          (l.get ⟨i, hi⟩)) := by
  intro l
  induction l with
  | nil => intro n i hi; cases hi
  | cons a rest ih =>
      intro n i hi
      cases i with
      | zero => simp [compute_loads_go]
      | succ j =>
          have hj : j < rest.length := by
            simpa using hi
          have := ih (n + 1) j hj
          simpa [compute_loads_go, Nat.add_assoc, Nat.add_comm 1 j] using this

/-- Claim C6: with matching lengths and a valid status buffer,
compute_loads succeeds, the output has one record per input in the same
position, and the record at position i carries the three flag bits of
the status looked up at the status reference index of the i-th logical
(with the all-zero default), its load byte, and the score engine result
on that status with the i-th jitter sample. -/
theorem c6_compute_loads_fields (legacy : Bool) (jitter : Nat → ℝ) (loads : List Load)
    (logicals : List Logical) (status_file : List Nat)
    (user_location : Option Location) (user_country : Option Country)
    (records : List Nat) (i : Nat)
    (hpar : parserTryFrom status_file = Except.ok records)
    (hlen : loads.length = logicals.length) (hi : i < logicals.length) :
    (∃ r, compute_loads legacy jitter loads logicals status_file user_location
      user_country = Except.ok r) ∧
    (okLoads (compute_loads legacy jitter loads logicals status_file user_location
      user_country)).length = logicals.length ∧
    (okLoads (compute_loads legacy jitter loads logicals status_file user_location
      user_country))[i]? =
      some
        { is_enabled := (parserGet records ((logicals.get ⟨i, hi⟩).status_reference.index)
            ServerStatus.default).1.status &&& STATUS_ENABLED != 0
          is_visible := (parserGet records ((logicals.get ⟨i, hi⟩).status_reference.index)
            ServerStatus.default).1.status &&& STATUS_VISIBLE != 0
          is_autoconnectable := (parserGet records ((logicals.get ⟨i, hi⟩).status_reference.index)
            ServerStatus.default).1.status &&& STATUS_AUTOCONNECTABLE != 0
          load := (parserGet records ((logicals.get ⟨i, hi⟩).status_reference.index)
            ServerStatus.default).1.load
          score := compute_score legacy
            { status_penalty := (logicals.get ⟨i, hi⟩).status_reference.penalty
              status_cost := (logicals.get ⟨i, hi⟩).status_reference.cost
              country := (logicals.get ⟨i, hi⟩).exit_country
              partial_score := f32_to_real (parserGet records
                ((logicals.get ⟨i, hi⟩).status_reference.index)
                ServerStatus.default).1.partial_score
              status := (parserGet records ((logicals.get ⟨i, hi⟩).status_reference.index)
                ServerStatus.default).1.status
              exit_location := (logicals.get ⟨i, hi⟩).exit_location
              entry_location := (logicals.get ⟨i, hi⟩).entry_location
              normalized_jitter := jitter i }
            user_location user_country } := by
  have hne : ¬ loads.length ≠ logicals.length := by
    omega
  unfold compute_loads
  rw [hpar]
  dsimp only
  rw [if_neg hne]
  refine ⟨⟨_, rfl⟩, ?_, ?_⟩
  · simp [okLoads, compute_loads_go_length]
  · have hgo := compute_loads_go_getElem legacy jitter records user_location user_country
      logicals 0 i hi
    simp only [okLoads, List.getElem?_map, hgo, Nat.zero_add, Option.map_some]
    rfl

theorem c6_witness :
    parserTryFrom [1, 0, 0, 0] = Except.ok [] ∧
    (okLoads (compute_loads false (fun _ => 0) [Load.default] [Logical.default] [1, 0, 0, 0]
      none none)).length = 1 := by
  constructor
  · rfl
  · have h := c6_compute_loads_fields false (fun _ => 0) [Load.default] [Logical.default]
      [1, 0, 0, 0] none none [] 0 (by rfl) (by rfl) (by decide)
    simpa using h.2.1

/-- Claim C7 as amended: the status file is parsed first, so with a
structurally valid status buffer and differing lengths compute_loads
fails with the length-mismatch error carrying servers = number of
logicals and loads = number of output records; with an invalid buffer
the parse error is returned instead. -/
theorem c7_length_mismatch (legacy : Bool) (jitter : Nat → ℝ) (loads : List Load)
    (logicals : List Logical) (status_file : List Nat) (user_location : Option Location)
    (user_country : Option Country) (records : List Nat)
    (hpar : parserTryFrom status_file = Except.ok records)
    (hne : loads.length ≠ logicals.length) :
    compute_loads legacy jitter loads logicals status_file user_location user_country =
      Except.error (Error.LengthsNotConsistent logicals.length loads.length) := by
  unfold compute_loads
  rw [hpar]
  dsimp only
  rw [if_pos hne]

theorem c7_witness :
    parserTryFrom [1, 0, 0, 0] = Except.ok [] ∧
    ([Load.default, Load.default].length ≠ [Logical.default].length) ∧
    compute_loads false (fun _ => 0) [Load.default, Load.default] [Logical.default]
      [1, 0, 0, 0] none none =
      Except.error (Error.LengthsNotConsistent 1 2) := by
  refine ⟨rfl, by decide, ?_⟩
  have h := c7_length_mismatch false (fun _ => 0) [Load.default, Load.default]
    [Logical.default] [1, 0, 0, 0] none none [] (by rfl) (by decide)
  simpa using h

/-- Claim C7 counterexample: with a status buffer that is not
structurally valid (here the empty buffer) and mismatched lengths
(2 output records, 1 logical), compute_loads returns the parse error,
not the length-mismatch error: the parse happens before the length
check. -/
theorem c7_counterexample :
    ([Load.default, Load.default] : List Load).length ≠
      ([Logical.default] : List Logical).length ∧
    compute_loads false (fun _ => 0) [Load.default, Load.default] [Logical.default] [] none
      none = Except.error (Error.ParserError "Failed to read first 4 bytes in magic number") ∧
    Error.ParserError "Failed to read first 4 bytes in magic number" ≠
      Error.LengthsNotConsistent 1 2 := by
  refine ⟨by decide, rfl, by decide⟩
